import Mathlib

/-!
A shallow embedding of the GeoUtils3D library (files `utility.py`,
`mathtypes.py`, `meshtypes.py`, `calc.py`) and proofs about it.

Modelling conventions:
* numpy coordinate arrays become rational vectors (`Vec3`, or `List ℚ`
  where the code manipulates arrays of statically unknown length);
  numeric literals such as the tolerance `1e-8` become the exact
  rationals they denote;
* Python exceptions become an explicit `PyErr` value threaded through
  `Except`; each fallible operation returns `Except PyErr _`;
* runtime type checks (`argcheck_type`, `modecheck_type`'s `str` test)
  are discharged by the Lean types of the embedded arguments and are
  noted where they occur.
-/

namespace GeoUtils

/-- The Python exception kinds raised by the library: `ValueError`,
`TypeError`, and `AttributeError`. -/
inductive PyErr where
  | valueError
  | typeError
  | attributeError
deriving DecidableEq, Repr

/-- A 3-element numpy array of coordinates (`array([x, y, z])`). -/
structure Vec3 where
  x : ℚ
  y : ℚ
  z : ℚ
deriving DecidableEq, Repr

namespace Vec3

/-- Elementwise numpy addition. -/
def add (a b : Vec3) : Vec3 := ⟨a.x + b.x, a.y + b.y, a.z + b.z⟩

/-- Elementwise numpy subtraction. -/
def sub (a b : Vec3) : Vec3 := ⟨a.x - b.x, a.y - b.y, a.z - b.z⟩

/-- numpy scalar * array multiplication (also array * scalar). -/
def smul (t : ℚ) (a : Vec3) : Vec3 := ⟨t * a.x, t * a.y, t * a.z⟩

/-- numpy unary negation. -/
def neg (a : Vec3) : Vec3 := ⟨-a.x, -a.y, -a.z⟩

/-- Models `numpy.dot` on 3-vectors. -/
def dot (a b : Vec3) : ℚ := a.x * b.x + a.y * b.y + a.z * b.z

/-- Models `numpy.cross` on 3-vectors. -/
def cross (a b : Vec3) : Vec3 :=
  ⟨a.y * b.z - a.z * b.y, a.z * b.x - a.x * b.z, a.x * b.y - a.y * b.x⟩

/-- Coordinate list of a `Vec3` (the array seen as a sequence, as
`utility.argcheck_dim` sees it through `len`). -/
def toList (a : Vec3) : List ℚ := [a.x, a.y, a.z]

end Vec3

/-- A 2-element UV coordinate pair (`uvtypes.UVPoint` data, and the
result of `calc.map_xyz_to_uv`). -/
structure Vec2 where
  u : ℚ
  v : ℚ
deriving DecidableEq, Repr

namespace Vec2

/-- Elementwise subtraction of UV coordinates. -/
def sub (a b : Vec2) : Vec2 := ⟨a.u - b.u, a.v - b.v⟩

/-- The scalar 2D cross product `cross(a, b) = a.u * b.v - a.v * b.u`
(what `numpy.cross` returns on two 2-vectors). -/
def cross2 (a b : Vec2) : ℚ := a.u * b.v - a.v * b.u

end Vec2

/-! ## utility.py -/

/-- Characterwise lowercase of a string (the behaviour of Python's
`str.lower` on the ASCII mode strings this library compares against). -/
def strLower (s : String) : String := String.mk (s.data.map Char.toLower)

/-- Models `utility.modecheck_type`: checks that the mode is a `str` (holds by
typing here) and lowercases it. -/
def modecheck_type (mode : String) : String := strLower mode

/-- Models `utility.argcheck_dim(dim, *args)`: each argument reduced to its
coordinate vector; raises `ValueError` when
`min(arg_len) < dim < max(arg_len)` or when `dim != min(arg_len)`,
otherwise returns `True`.  An empty argument tuple makes Python's
`min([])` raise `ValueError` as well. -/
def argcheck_dim (dim : ℕ) (args : List (List ℚ)) : Except PyErr Bool :=
  let arg_len := args.map List.length
  match arg_len with
  | [] => .error .valueError
  | n :: ns =>
    let mn := ns.foldl min n
    let mx := ns.foldl max n
    if mn < dim ∧ dim < mx then .error .valueError
    else if dim ≠ mn then .error .valueError
    else .ok true

/-- Models `utility.argcheck_minmax(min, max, argument)`: raises `ValueError`
unless `min <= argument <= max`. -/
def argcheck_minmax (mn mx arg : ℚ) : Except PyErr Bool :=
  if mn ≤ arg ∧ arg ≤ mx then .ok true else .error .valueError

/-! ## mathtypes.py — Point

The Python `Point` stores the numpy array `__coords` together with the
cached scalars `__x`, `__y`, `__z` read back by the `x`/`y`/`z`
properties.  The embedding keeps both, mirroring the source exactly:
`coords` is `__coords` and `cacheX`/`cacheY`/`cacheZ` are
`__x`/`__y`/`__z`. -/

structure Point where
  coords : List ℚ
  cacheX : ℚ
  cacheY : ℚ
  cacheZ : ℚ
deriving DecidableEq, Repr

/-- Models `Point.__init__` with three scalar arguments: `__coords = array(coords)`,
then `__x, __y, __z = __coords[0], __coords[1], __coords[2]`. -/
def pointInit3 (a b c : ℚ) : Point := ⟨[a, b, c], a, b, c⟩

/-- Models `Point.__init__` with a single ndarray argument: requires length 3
(`ValueError` otherwise), then caches the three coordinates. -/
def pointInitArr (l : List ℚ) : Except PyErr Point :=
  match l with
  | [a, b, c] => .ok ⟨[a, b, c], a, b, c⟩
  | _ => .error .valueError

/-- The `x` property getter: returns the cached `__x`. -/
def Point.getX (p : Point) : ℚ := p.cacheX

/-- The `y` property getter: returns the cached `__y`. -/
def Point.getY (p : Point) : ℚ := p.cacheY

/-- The `z` property getter: returns the cached `__z`. -/
def Point.getZ (p : Point) : ℚ := p.cacheZ

/-- The `x` property setter: `__coords[0] = x_coord; __x = x_coord`
(the type check on the scalar holds by typing). -/
def pointSetX (p : Point) (v : ℚ) : Point :=
  { p with coords := p.coords.set 0 v, cacheX := v }

/-- The `y` property setter: `__coords[1] = y_coord; __y = y_coord`. -/
def pointSetY (p : Point) (v : ℚ) : Point :=
  { p with coords := p.coords.set 1 v, cacheY := v }

/-- The `z` property setter: `__coords[2] = z_coord; __z = z_coord`. -/
def pointSetZ (p : Point) (v : ℚ) : Point :=
  { p with coords := p.coords.set 2 v, cacheZ := v }

/-- The `coords` property setter: `argcheck_type` (holds by typing),
`argcheck_dim(3, new_coords)`, then `__coords = new_coords`.  The cached
`__x`, `__y`, `__z` are not touched by the source. -/
def pointSetCoords (p : Point) (l : List ℚ) : Except PyErr Point :=
  match argcheck_dim 3 [l] with
  | .error e => .error e
  | .ok _ => .ok { p with coords := l }

/-! ## mathtypes.py — Line -/

structure Line where
  point_a : Vec3
  point_b : Vec3
  vector : Vec3
deriving DecidableEq, Repr

/-- Models `Line.__init__(constraint_0, constraint_1, mode)`: lowercases the
mode, checks types and dimensions (both hold by `Vec3` typing), then in
`point` mode derives `__vector = __point_b - __point_a` and in `vector`
mode derives `__point_b = __point_a + __vector`; any other mode raises
`ValueError`. -/
def lineInit (c0 c1 : Vec3) (mode : String) : Except PyErr Line :=
  let m := modecheck_type mode
  if m = "point" then .ok ⟨c0, c1, Vec3.sub c1 c0⟩
  else if m = "vector" then .ok ⟨c0, Vec3.add c0 c1, c1⟩
  else .error .valueError

/-- The `point_a` setter: stores the new point and recomputes
`__vector = __point_b - __point_a` from the unchanged `__point_b`. -/
def lineSetPointA (l : Line) (p : Vec3) : Line :=
  ⟨p, l.point_b, Vec3.sub l.point_b p⟩

/-- The `point_b` setter: stores the new point and recomputes
`__vector = __point_b - __point_a` from the unchanged `__point_a`. -/
def lineSetPointB (l : Line) (p : Vec3) : Line :=
  ⟨l.point_a, p, Vec3.sub p l.point_a⟩

/-- The `vector` setter: stores the new vector and recomputes
`__point_b = __point_a + __vector` from the unchanged `__point_a`. -/
def lineSetVector (l : Line) (v : Vec3) : Line :=
  ⟨l.point_a, Vec3.add l.point_a v, v⟩

/-- One mutation through a `Line` property setter. -/
inductive LineOp where
  | setA (p : Vec3)
  | setB (p : Vec3)
  | setVec (v : Vec3)
deriving Repr

/-- Dispatch of a single `LineOp`. -/
def lineApply (l : Line) (op : LineOp) : Line :=
  match op with
  | .setA p => lineSetPointA l p
  | .setB p => lineSetPointB l p
  | .setVec v => lineSetVector l v

/-- A sequence of `Line` setter calls, applied left to right. -/
def lineApplyAll (l : Line) (ops : List LineOp) : Line :=
  ops.foldl lineApply l

/-- The spec's Line invariant: `point_b == point_a + vector` and
`vector == point_b - point_a`. -/
def lineInv (l : Line) : Prop :=
  l.point_b = Vec3.add l.point_a l.vector ∧
  l.vector = Vec3.sub l.point_b l.point_a

/-- Models `Line.point(scale)`: `point_a + scale * vector`. -/
def linePoint (l : Line) (scale : ℚ) : Vec3 :=
  Vec3.add l.point_a (Vec3.smul scale l.vector)

/-! ## mathtypes.py — Plane -/

structure Plane where
  point_a : Vec3
  point_b : Vec3
  point_c : Vec3
  vector_u : Vec3
  vector_v : Vec3
  normal : Vec3
deriving DecidableEq, Repr

/-- Models `Plane.__init__(constraint_0, constraint_1, constraint_2, mode)`.
Dimension and type checks hold by `Vec3` typing.  In `point` mode the two
defining vectors are the edge differences from `point_a`; in `vector`
mode they are taken directly and the points are derived; in `normal`
mode the source evaluates `cross(self.__point_c, self.__vector_u)` but
`self.__point_c` has not been assigned in that branch, so Python raises
`AttributeError` before anything is returned; any other mode raises
`ValueError`.  On success `__normal = cross(__vector_u, __vector_v)`. -/
def planeInit (c0 c1 c2 : Vec3) (mode : String) : Except PyErr Plane :=
  let m := modecheck_type mode
  let a := c0
  if m = "point" then
    let b := c1
    let c := c2
    let u := Vec3.sub b a
    let v := Vec3.sub c a
    .ok ⟨a, b, c, u, v, Vec3.cross u v⟩
  else
    let u := c1
    let b := Vec3.add a u
    if m = "vector" then
      let v := c2
      let c := Vec3.add a v
      .ok ⟨a, b, c, u, v, Vec3.cross u v⟩
    else if m = "normal" then
      .error .attributeError
    else
      .error .valueError

/-- Models `Plane.__recalc_normal`: `__vector_u = __point_b - __point_a`,
`__vector_v = __point_c - __point_a`,
`__normal = cross(__vector_u, __vector_v)`. -/
def planeRecalcNormal (pl : Plane) : Plane :=
  let u := Vec3.sub pl.point_b pl.point_a
  let v := Vec3.sub pl.point_c pl.point_a
  { pl with vector_u := u, vector_v := v, normal := Vec3.cross u v }

/-- The `point_a` setter: stores the new point then runs
`__recalc_normal`. -/
def planeSetPointA (pl : Plane) (p : Vec3) : Plane :=
  planeRecalcNormal { pl with point_a := p }

/-- The `point_b` setter: stores the new point then runs
`__recalc_normal`. -/
def planeSetPointB (pl : Plane) (p : Vec3) : Plane :=
  planeRecalcNormal { pl with point_b := p }

/-- The `point_c` setter: stores the new point then runs
`__recalc_normal`. -/
def planeSetPointC (pl : Plane) (p : Vec3) : Plane :=
  planeRecalcNormal { pl with point_c := p }

/-- One mutation through a `Plane` point setter. -/
inductive PlaneOp where
  | setA (p : Vec3)
  | setB (p : Vec3)
  | setC (p : Vec3)
deriving Repr

/-- Dispatch of a single `PlaneOp`. -/
def planeApply (pl : Plane) (op : PlaneOp) : Plane :=
  match op with
  | .setA p => planeSetPointA pl p
  | .setB p => planeSetPointB pl p
  | .setC p => planeSetPointC pl p

/-- A sequence of `Plane` point setter calls, applied left to right. -/
def planeApplyAll (pl : Plane) (ops : List PlaneOp) : Plane :=
  ops.foldl planeApply pl

/-- The spec's Plane invariant: `normal == cross(vector_u, vector_v)`. -/
def planeInv (pl : Plane) : Prop :=
  pl.normal = Vec3.cross pl.vector_u pl.vector_v

/-- Models `Plane.point(scale_a, scale_b)`: the source computes
`point_a + scale_a * __vector_v + scale_b * __vector_v` — `__vector_v`
appears in both terms. -/
def planePoint (pl : Plane) (scale_a scale_b : ℚ) : Vec3 :=
  Vec3.add (Vec3.add pl.point_a (Vec3.smul scale_a pl.vector_v))
    (Vec3.smul scale_b pl.vector_v)

/-! ## meshtypes.py — Edge -/

structure Edge where
  vertex_a : Vec3
  vertex_b : Vec3
  vector : Vec3
deriving DecidableEq, Repr

/-- Models `Edge.__init__(vert_0, vert_1)`: type and dimension checks hold by
`Vec3` typing; `__vector = __vertex_b - __vertex_a`. -/
def edgeInit (v0 v1 : Vec3) : Edge := ⟨v0, v1, Vec3.sub v1 v0⟩

/-- Models `Edge.point(proportion)`: type check, then
`argcheck_minmax(0, 1, proportion)` (raising `ValueError` outside the
range), then `__vertex_a + vector * proportion`. -/
def edgePoint (e : Edge) (proportion : ℚ) : Except PyErr Vec3 :=
  match argcheck_minmax 0 1 proportion with
  | .error err => .error err
  | .ok _ => .ok (Vec3.add e.vertex_a (Vec3.smul proportion e.vector))

/-! ## meshtypes.py — Face -/

structure Face where
  vertex_a : Vec3
  vertex_b : Vec3
  vertex_c : Vec3
  edge_a : Edge
  edge_b : Edge
  edge_c : Edge
  vector_u : Vec3
  vector_v : Vec3
  normal : Vec3
deriving DecidableEq, Repr

/-- The tail of `Face.__init__` common to all modes, once the three
vertices are selected: `argcheck_dim(3, ...)` (holds by `Vec3` typing),
the three derived edges `a→b`, `b→c`, `c→a`, the two in-plane vectors
`__vector_u = b - a`, `__vector_v = c - a`, and
`__normal = cross(__vector_u, __vector_v)`.  No winding normalization or
vertex reordering appears anywhere in the constructor. -/
def faceMk (va vb vc : Vec3) : Face :=
  ⟨va, vb, vc, edgeInit va vb, edgeInit vb vc, edgeInit vc va,
    Vec3.sub vb va, Vec3.sub vc va,
    Vec3.cross (Vec3.sub vb va) (Vec3.sub vc va)⟩

/-- Models `Face.__init__` in vertex mode (three vertex arguments): type checks
hold by typing; the vertices are stored in the given order. -/
def faceInit3 (v0 v1 v2 : Vec3) : Face := faceMk v0 v1 v2

/-- The componentwise tolerance comparison used by the two-edge mode of
`Face.__init__`: `reduce(and, abs(p - q) <= sigma)` with
`sigma = 1e-8`. -/
def nearTol (p q : Vec3) : Prop :=
  |p.x - q.x| ≤ 1 / 100000000 ∧ |p.y - q.y| ≤ 1 / 100000000 ∧
    |p.z - q.z| ≤ 1 / 100000000

instance (p q : Vec3) : Decidable (nearTol p q) := by
  unfold nearTol
  infer_instance

/-- Models `Face.__init__` in two-edge mode: if `vertex_a` of the first edge
matches either endpoint of the second edge within tolerance,
`__vertex_a = v0b`; otherwise if `vertex_b` of the first edge matches,
`__vertex_a = v0a`; otherwise `ValueError` ("Passed Edge objects do not
share at least 1 Vertex.").  Then `__vertex_b = v1a`, `__vertex_c = v1b`
and the common tail of the constructor runs. -/
def faceInitFromEdges (e0 e1 : Edge) : Except PyErr Face :=
  let v0a := e0.vertex_a
  let v0b := e0.vertex_b
  let v1a := e1.vertex_a
  let v1b := e1.vertex_b
  if nearTol v0a v1a ∨ nearTol v0a v1b then
    .ok (faceMk v0b v1a v1b)
  else if nearTol v0b v1a ∨ nearTol v0b v1b then
    .ok (faceMk v0a v1a v1b)
  else
    .error .valueError

/-- The `edge_a` setter of `Face`: after `argcheck_type` (holds by
typing) the source assigns `self.__edge_a = new_edge` and then calls
`self.__recalc_vertices()` with no argument, although
`__recalc_vertices(self, edge_id)` requires one — Python raises
`TypeError` at that call, after the edge assignment and before any
vertex, edge or normal recomputation.  The result pairs the object's
state at the moment the exception propagates with the raised error. -/
def faceSetEdgeA (f : Face) (e : Edge) : Face × Option PyErr :=
  ({ f with edge_a := e }, some PyErr.typeError)

/-! ## calc.py — UV mapping and the winding test -/

/-- Models `calc.map_xyz_to_uv(origin, u_axis, normal, point, norm=False)`:
translate the point relative to the origin, derive
`v_axis = cross(u_axis, -normal)`, and project onto the two axes with
dot products.  The `norm=True` variant only divides `u_axis` and
`v_axis` by their (positive) Euclidean lengths, scaling each UV
coordinate by a positive constant; the sign of the 2D cross product of
two mapped difference vectors — the only quantity the winding claims
consult — is therefore the same for both variants, and the unnormalized
variant stays inside ℚ. -/
def map_xyz_to_uv (origin u_axis nrm point : Vec3) : Vec2 :=
  let p := Vec3.sub point origin
  let v_axis := Vec3.cross u_axis (Vec3.neg nrm)
  ⟨Vec3.dot u_axis p, Vec3.dot v_axis p⟩

/-- The winding test of spec §4.4 for an ordered vertex triple: map the
three vertices into the UV frame with origin `a`, U-axis `b - a` and
normal `cross(b - a, c - a)`, then return
`cross(uv(b) - uv(a), uv(c) - uv(a))`. -/
def windingCross (a b c : Vec3) : ℚ :=
  let u := Vec3.sub b a
  let n := Vec3.cross u (Vec3.sub c a)
  let uva := map_xyz_to_uv a u n a
  let uvb := map_xyz_to_uv a u n b
  let uvc := map_xyz_to_uv a u n c
  Vec2.cross2 (Vec2.sub uvb uva) (Vec2.sub uvc uva)

end GeoUtils

deriving instance DecidableEq for Except

namespace GeoUtils

/-! ## Helper lemmas -/

/-- Vector algebra: `p + (q - p) = q` componentwise. -/
theorem vec3_add_sub (p q : Vec3) : Vec3.add p (Vec3.sub q p) = q := by
  cases p
  cases q
  simp only [Vec3.add, Vec3.sub, Vec3.mk.injEq]
  refine ⟨by ring, by ring, by ring⟩

/-- Vector algebra: `(p + v) - p = v` componentwise. -/
theorem vec3_sub_add (p v : Vec3) : Vec3.sub (Vec3.add p v) p = v := by
  cases p
  cases v
  simp only [Vec3.add, Vec3.sub, Vec3.mk.injEq]
  refine ⟨by ring, by ring, by ring⟩

/-- A dot product of a vector with itself is nonnegative. -/
theorem vec3_dot_self_nonneg (v : Vec3) : 0 ≤ Vec3.dot v v := by
  obtain ⟨x, y, z⟩ := v
  simp only [Vec3.dot]
  nlinarith [mul_self_nonneg x, mul_self_nonneg y, mul_self_nonneg z]

/-- The winding test evaluates to `|b - a|² · |cross(b - a, c - a)|²`:
in the UV frame built from the triple's own normal the 2D cross product
is a product of two self-dot-products (a Lagrange-identity computation). -/
theorem windingCross_eq (a b c : Vec3) :
    windingCross a b c =
      Vec3.dot (Vec3.sub b a) (Vec3.sub b a) *
        Vec3.dot (Vec3.cross (Vec3.sub b a) (Vec3.sub c a))
          (Vec3.cross (Vec3.sub b a) (Vec3.sub c a)) := by
  cases a
  cases b
  cases c
  simp only [windingCross, map_xyz_to_uv, Vec3.sub, Vec3.cross, Vec3.neg,
    Vec3.dot, Vec2.sub, Vec2.cross2]
  ring

/-- The winding test is nonnegative for every ordered vertex triple. -/
theorem windingCross_nonneg (a b c : Vec3) : 0 ≤ windingCross a b c := by
  rw [windingCross_eq]
  exact mul_nonneg (vec3_dot_self_nonneg _) (vec3_dot_self_nonneg _)

/-! ## Claims -/

/-- C1: a `Face` built from three non-collinear vertices in any input
order stores `vertex_b`/`vertex_c` swapped exactly when the given order
is clockwise under the UV winding test of spec §4.4 (which never
happens: in a frame derived from the triple's own normal the test is
nonnegative for every order, so the constructor's order-preserving
behaviour realizes the rule), and the constructed face's vertex order
projected into its own UV frame satisfies
`cross(uv(b) - uv(a), uv(c) - uv(a)) >= 0`. -/
theorem faceInit3_winding_ccw (v0 v1 v2 : Vec3)
    (_hnc : Vec3.cross (Vec3.sub v1 v0) (Vec3.sub v2 v0) ≠ Vec3.mk 0 0 0) :
    (faceInit3 v0 v1 v2).vertex_a = v0 ∧
    (faceInit3 v0 v1 v2).vertex_b = (if windingCross v0 v1 v2 < 0 then v2 else v1) ∧
    (faceInit3 v0 v1 v2).vertex_c = (if windingCross v0 v1 v2 < 0 then v1 else v2) ∧
    0 ≤ windingCross (faceInit3 v0 v1 v2).vertex_a (faceInit3 v0 v1 v2).vertex_b
        (faceInit3 v0 v1 v2).vertex_c := by
  have hif : ¬ (windingCross v0 v1 v2 < 0) := not_lt.mpr (windingCross_nonneg v0 v1 v2)
  refine ⟨rfl, ?_, ?_, windingCross_nonneg v0 v1 v2⟩
  · simp only [if_neg hif, faceInit3, faceMk]
  · simp only [if_neg hif, faceInit3, faceMk]

/-- C1 witness: the winding theorem instantiated at the CCW triangle
`(0,0,0), (1,0,0), (0,1,0)`. -/
theorem faceInit3_winding_ccw_witness :
    0 ≤ windingCross (faceInit3 (Vec3.mk 0 0 0) (Vec3.mk 1 0 0) (Vec3.mk 0 1 0)).vertex_a
        (faceInit3 (Vec3.mk 0 0 0) (Vec3.mk 1 0 0) (Vec3.mk 0 1 0)).vertex_b
        (faceInit3 (Vec3.mk 0 0 0) (Vec3.mk 1 0 0) (Vec3.mk 0 1 0)).vertex_c :=
  (faceInit3_winding_ccw (Vec3.mk 0 0 0) (Vec3.mk 1 0 0) (Vec3.mk 0 1 0)
    (by simp only [Vec3.sub, Vec3.cross, ne_eq, Vec3.mk.injEq]; norm_num)).2.2.2

/-- C2: constructing a `Plane` in `normal` mode never succeeds — the
source reads `self.__point_c` before that attribute is assigned, so
every `normal`-mode construction raises `AttributeError` instead of
deriving `vector_v` from the `c2` input. -/
theorem planeInit_normal_mode_raises (c0 c1 c2 : Vec3) :
    planeInit c0 c1 c2 "normal" = .error .attributeError := by
  have hm : modecheck_type "normal" = "normal" := by decide
  simp only [planeInit, hm]
  rw [if_neg (show ¬ ("normal" : String) = "point" by decide),
    if_neg (show ¬ ("normal" : String) = "vector" by decide), if_pos trivial]

/-- C3: the whole-vector `coords` setter of `Point` replaces `__coords`
without refreshing the cached `__x`/`__y`/`__z`, so after
`Point(1, 2, 3).coords = [4, 5, 6]` the `x` accessor still returns `1`
while `coords[0]` is `4` — the accessors desynchronize from the
coordinate vector. -/
theorem point_coords_setter_desync :
    pointSetCoords (pointInit3 1 2 3) [4, 5, 6] = .ok (Point.mk [4, 5, 6] 1 2 3) ∧
    Point.getX (Point.mk [4, 5, 6] 1 2 3) = 1 ∧
    (Point.mk [4, 5, 6] 1 2 3).coords.getD 0 0 = 4 ∧
    Point.getX (Point.mk [4, 5, 6] 1 2 3) ≠ (Point.mk [4, 5, 6] 1 2 3).coords.getD 0 0 := by
  refine ⟨by decide, by decide, by decide, by decide⟩

/-- C4 counterexample: `argcheck_dim(3, ...)` applied to one argument of
length 3 and one of length 4 returns `True` — the over-long argument is
not rejected, contradicting the claim that any argument whose
coordinate vector is longer than `expected` is always rejected. -/
theorem argcheck_dim_long_arg_accepted :
    argcheck_dim 3 [[0, 0, 0], [0, 0, 0, 0]] = .ok true ∧
    ([(0 : ℚ), 0, 0, 0] : List ℚ).length ≠ 3 := by
  refine ⟨by decide, by decide⟩

/-- C4 (amended): `argcheck_dim(expected, args...)` raises a
dimension-mismatch `ValueError` exactly when the minimum coordinate
length among the arguments differs from `expected`; arguments longer
than `expected` are accepted whenever that minimum equals `expected`. -/
theorem argcheck_dim_min_rule (dim : ℕ) (a : List ℚ) (as : List (List ℚ)) :
    (argcheck_dim dim (a :: as) = .ok true ↔
      (as.map List.length).foldl min a.length = dim) ∧
    (argcheck_dim dim (a :: as) = .error PyErr.valueError ↔
      (as.map List.length).foldl min a.length ≠ dim) := by
  simp only [argcheck_dim, List.map_cons]
  split_ifs with h1 h2
  · refine ⟨?_, ?_⟩
    · simp only [reduceCtorEq, false_iff]
      omega
    · simp only [eq_self_iff_true, true_iff]
      omega
  · refine ⟨?_, ?_⟩
    · simp only [reduceCtorEq, false_iff]
      omega
    · simp only [eq_self_iff_true, true_iff]
      omega
  · refine ⟨?_, ?_⟩
    · simp only [Except.ok.injEq, eq_self_iff_true, true_iff]
      omega
    · simp only [reduceCtorEq, false_iff, ne_eq, not_not]
      omega

/-- C5: the `edge_a` setter of `Face` is not atomic on failure — at the
concrete face built from `(0,0,0), (1,0,0), (0,1,0)` it always raises
`TypeError` (the `__recalc_vertices()` call omits the required
`edge_id` argument), yet the object observed when the exception
propagates has `edge_a` already replaced by the new edge while the
vertices and normal still hold their old values: a partial state
change escapes. -/
theorem face_edge_setter_not_atomic :
    (faceSetEdgeA (faceInit3 (Vec3.mk 0 0 0) (Vec3.mk 1 0 0) (Vec3.mk 0 1 0))
        (edgeInit (Vec3.mk 5 5 0) (Vec3.mk 6 5 0))).2 = some PyErr.typeError ∧
    (faceSetEdgeA (faceInit3 (Vec3.mk 0 0 0) (Vec3.mk 1 0 0) (Vec3.mk 0 1 0))
        (edgeInit (Vec3.mk 5 5 0) (Vec3.mk 6 5 0))).1.edge_a =
      edgeInit (Vec3.mk 5 5 0) (Vec3.mk 6 5 0) ∧
    (faceSetEdgeA (faceInit3 (Vec3.mk 0 0 0) (Vec3.mk 1 0 0) (Vec3.mk 0 1 0))
        (edgeInit (Vec3.mk 5 5 0) (Vec3.mk 6 5 0))).1 ≠
      faceInit3 (Vec3.mk 0 0 0) (Vec3.mk 1 0 0) (Vec3.mk 0 1 0) ∧
    (faceSetEdgeA (faceInit3 (Vec3.mk 0 0 0) (Vec3.mk 1 0 0) (Vec3.mk 0 1 0))
        (edgeInit (Vec3.mk 5 5 0) (Vec3.mk 6 5 0))).1.vertex_a =
      (faceInit3 (Vec3.mk 0 0 0) (Vec3.mk 1 0 0) (Vec3.mk 0 1 0)).vertex_a ∧
    (faceSetEdgeA (faceInit3 (Vec3.mk 0 0 0) (Vec3.mk 1 0 0) (Vec3.mk 0 1 0))
        (edgeInit (Vec3.mk 5 5 0) (Vec3.mk 6 5 0))).1.vertex_b =
      (faceInit3 (Vec3.mk 0 0 0) (Vec3.mk 1 0 0) (Vec3.mk 0 1 0)).vertex_b ∧
    (faceSetEdgeA (faceInit3 (Vec3.mk 0 0 0) (Vec3.mk 1 0 0) (Vec3.mk 0 1 0))
        (edgeInit (Vec3.mk 5 5 0) (Vec3.mk 6 5 0))).1.vertex_c =
      (faceInit3 (Vec3.mk 0 0 0) (Vec3.mk 1 0 0) (Vec3.mk 0 1 0)).vertex_c ∧
    (faceSetEdgeA (faceInit3 (Vec3.mk 0 0 0) (Vec3.mk 1 0 0) (Vec3.mk 0 1 0))
        (edgeInit (Vec3.mk 5 5 0) (Vec3.mk 6 5 0))).1.normal =
      (faceInit3 (Vec3.mk 0 0 0) (Vec3.mk 1 0 0) (Vec3.mk 0 1 0)).normal := by
  refine ⟨rfl, rfl, ?_, rfl, rfl, rfl, rfl⟩
  simp only [faceSetEdgeA, faceInit3, faceMk, edgeInit, Vec3.sub, Vec3.cross, ne_eq,
    Face.mk.injEq, Edge.mk.injEq, Vec3.mk.injEq, not_and]
  norm_num

/-- Both `Line` initialization modes establish the spec invariant. -/
theorem lineInit_inv (c0 c1 : Vec3) (mode : String) (l : Line)
    (h : lineInit c0 c1 mode = .ok l) : lineInv l := by
  simp only [lineInit] at h
  split at h
  · cases h
    exact ⟨(vec3_add_sub c0 c1).symm, rfl⟩
  · split at h
    · cases h
      exact ⟨rfl, (vec3_sub_add c0 c1).symm⟩
    · cases h

/-- Every `Line` setter leaves the object satisfying the invariant. -/
theorem lineApply_inv (l : Line) (op : LineOp) : lineInv (lineApply l op) := by
  cases op with
  | setA p => exact ⟨(vec3_add_sub p l.point_b).symm, rfl⟩
  | setB p => exact ⟨(vec3_add_sub l.point_a p).symm, rfl⟩
  | setVec v => exact ⟨rfl, (vec3_sub_add l.point_a v).symm⟩

/-- The invariant survives any sequence of `Line` setter calls. -/
theorem lineApplyAll_inv (l : Line) (ops : List LineOp) (h : lineInv l) :
    lineInv (lineApplyAll l ops) := by
  induction ops generalizing l with
  | nil => exact h
  | cons op rest ih => exact ih (lineApply l op) (lineApply_inv l op)

/-- C6: for a `Line` constructed in either mode, after any sequence of
`point_a`/`point_b`/`vector` setter calls both
`point_b == point_a + vector` and `vector == point_b - point_a` hold;
moreover the `point_a` setter recomputes the vector from the unchanged
`point_b` and the `vector` setter recomputes `point_b` from the
unchanged `point_a`. -/
theorem line_invariant_after_setters (c0 c1 : Vec3) (mode : String) (l0 : Line)
    (h : lineInit c0 c1 mode = .ok l0) (ops : List LineOp) :
    lineInv (lineApplyAll l0 ops) ∧
    (∀ l p, lineSetPointA l p = Line.mk p l.point_b (Vec3.sub l.point_b p)) ∧
    (∀ l v, lineSetVector l v = Line.mk l.point_a (Vec3.add l.point_a v) v) :=
  ⟨lineApplyAll_inv l0 ops (lineInit_inv c0 c1 mode l0 h), fun _ _ => rfl, fun _ _ => rfl⟩

/-- C6 witness: the invariant theorem instantiated at a point-mode line
through `(0,0,0)` and `(1,2,3)` mutated by one `vector` setter call. -/
theorem line_invariant_after_setters_witness :
    lineInv (lineApplyAll (Line.mk (Vec3.mk 0 0 0) (Vec3.mk 1 2 3)
      (Vec3.sub (Vec3.mk 1 2 3) (Vec3.mk 0 0 0))) [LineOp.setVec (Vec3.mk 4 4 4)]) :=
  (line_invariant_after_setters (Vec3.mk 0 0 0) (Vec3.mk 1 2 3) "point"
    (Line.mk (Vec3.mk 0 0 0) (Vec3.mk 1 2 3) (Vec3.sub (Vec3.mk 1 2 3) (Vec3.mk 0 0 0)))
    (by simp only [lineInit, show modecheck_type "point" = "point" from by decide]
        exact if_pos trivial)
    [LineOp.setVec (Vec3.mk 4 4 4)]).1

/-- Both successful `Plane` initialization modes establish the spec
invariant `normal == cross(vector_u, vector_v)`. -/
theorem planeInit_inv (c0 c1 c2 : Vec3) (mode : String) (pl : Plane)
    (h : planeInit c0 c1 c2 mode = .ok pl) : planeInv pl := by
  simp only [planeInit] at h
  split at h
  · cases h
    rfl
  · split at h
    · cases h
      rfl
    · split at h
      · cases h
      · cases h

/-- Every `Plane` point setter reruns `__recalc_normal`, so the
invariant holds afterwards. -/
theorem planeApply_inv (pl : Plane) (op : PlaneOp) : planeInv (planeApply pl op) := by
  cases op <;> rfl

/-- The invariant survives any sequence of `Plane` point setter calls. -/
theorem planeApplyAll_inv (pl : Plane) (ops : List PlaneOp) (h : planeInv pl) :
    planeInv (planeApplyAll pl ops) := by
  induction ops generalizing pl with
  | nil => exact h
  | cons op rest ih => exact ih (planeApply pl op) (planeApply_inv pl op)

/-- C7: for every successfully constructed `Plane`,
`normal == cross(vector_u, vector_v)` holds after construction and
after any sequence of point mutations, and each point setter recomputes
`vector_u = point_b - point_a` and `vector_v = point_c - point_a`
before recomputing the normal as their cross product. -/
theorem plane_normal_invariant (c0 c1 c2 : Vec3) (mode : String) (pl : Plane)
    (h : planeInit c0 c1 c2 mode = .ok pl) (ops : List PlaneOp) :
    planeInv pl ∧
    planeInv (planeApplyAll pl ops) ∧
    (∀ q op, (planeApply q op).vector_u =
        Vec3.sub (planeApply q op).point_b (planeApply q op).point_a ∧
      (planeApply q op).vector_v =
        Vec3.sub (planeApply q op).point_c (planeApply q op).point_a ∧
      (planeApply q op).normal =
        Vec3.cross (planeApply q op).vector_u (planeApply q op).vector_v) := by
  refine ⟨planeInit_inv c0 c1 c2 mode pl h,
    planeApplyAll_inv pl ops (planeInit_inv c0 c1 c2 mode pl h), ?_⟩
  intro q op
  cases op <;> exact ⟨rfl, rfl, rfl⟩

/-- C7 witness: the invariant theorem instantiated at a point-mode plane
through `(0,0,0)`, `(1,0,0)`, `(0,1,0)` mutated by one `point_b` setter
call. -/
theorem plane_normal_invariant_witness :
    planeInv (planeApplyAll (Plane.mk (Vec3.mk 0 0 0) (Vec3.mk 1 0 0) (Vec3.mk 0 1 0)
      (Vec3.sub (Vec3.mk 1 0 0) (Vec3.mk 0 0 0)) (Vec3.sub (Vec3.mk 0 1 0) (Vec3.mk 0 0 0))
      (Vec3.cross (Vec3.sub (Vec3.mk 1 0 0) (Vec3.mk 0 0 0))
        (Vec3.sub (Vec3.mk 0 1 0) (Vec3.mk 0 0 0)))) [PlaneOp.setB (Vec3.mk 2 3 4)]) :=
  (plane_normal_invariant (Vec3.mk 0 0 0) (Vec3.mk 1 0 0) (Vec3.mk 0 1 0) "point"
    (Plane.mk (Vec3.mk 0 0 0) (Vec3.mk 1 0 0) (Vec3.mk 0 1 0)
      (Vec3.sub (Vec3.mk 1 0 0) (Vec3.mk 0 0 0)) (Vec3.sub (Vec3.mk 0 1 0) (Vec3.mk 0 0 0))
      (Vec3.cross (Vec3.sub (Vec3.mk 1 0 0) (Vec3.mk 0 0 0))
        (Vec3.sub (Vec3.mk 0 1 0) (Vec3.mk 0 0 0))))
    (by simp only [planeInit, show modecheck_type "point" = "point" from by decide]
        exact if_pos trivial)
    [PlaneOp.setB (Vec3.mk 2 3 4)]).2.1

/-- C8: `Face` construction from two edges.  When exactly one endpoint
of the first edge matches an endpoint of the second edge componentwise
within tolerance 1e-8, construction succeeds, the unshared endpoint of
the first edge becomes `vertex_a`, and the two endpoints of the second
edge, in that edge's own order, become `vertex_b` and `vertex_c`; when
no endpoint is shared, construction raises `ValueError` and no face is
produced. -/
theorem faceInitFromEdges_shared_endpoint (e0 e1 : Edge) :
    ((nearTol e0.vertex_a e1.vertex_a ∨ nearTol e0.vertex_a e1.vertex_b) →
      ¬ (nearTol e0.vertex_b e1.vertex_a ∨ nearTol e0.vertex_b e1.vertex_b) →
      faceInitFromEdges e0 e1 = .ok (faceMk e0.vertex_b e1.vertex_a e1.vertex_b)) ∧
    ((nearTol e0.vertex_b e1.vertex_a ∨ nearTol e0.vertex_b e1.vertex_b) →
      ¬ (nearTol e0.vertex_a e1.vertex_a ∨ nearTol e0.vertex_a e1.vertex_b) →
      faceInitFromEdges e0 e1 = .ok (faceMk e0.vertex_a e1.vertex_a e1.vertex_b)) ∧
    (¬ (nearTol e0.vertex_a e1.vertex_a ∨ nearTol e0.vertex_a e1.vertex_b) →
      ¬ (nearTol e0.vertex_b e1.vertex_a ∨ nearTol e0.vertex_b e1.vertex_b) →
      faceInitFromEdges e0 e1 = .error .valueError) := by
  refine ⟨fun hA _ => ?_, fun hB hnA => ?_, fun hnA hnB => ?_⟩
  · simp only [faceInitFromEdges, if_pos hA]
  · simp only [faceInitFromEdges, if_neg hnA, if_pos hB]
  · simp only [faceInitFromEdges, if_neg hnA, if_neg hnB]

/-- C8 witness: the two-edge construction theorem instantiated at a
sharing pair (edges `(0,0,0)→(1,0,0)` and `(0,0,0)→(0,1,0)`, shared
endpoint `(0,0,0)`) and at a disjoint pair (second edge
`(9,9,9)→(9,8,9)`). -/
theorem faceInitFromEdges_shared_endpoint_witness :
    faceInitFromEdges (edgeInit (Vec3.mk 0 0 0) (Vec3.mk 1 0 0))
        (edgeInit (Vec3.mk 0 0 0) (Vec3.mk 0 1 0)) =
      .ok (faceMk (Vec3.mk 1 0 0) (Vec3.mk 0 0 0) (Vec3.mk 0 1 0)) ∧
    faceInitFromEdges (edgeInit (Vec3.mk 0 0 0) (Vec3.mk 1 0 0))
        (edgeInit (Vec3.mk 9 9 9) (Vec3.mk 9 8 9)) =
      .error .valueError := by
  constructor
  · exact (faceInitFromEdges_shared_endpoint (edgeInit (Vec3.mk 0 0 0) (Vec3.mk 1 0 0))
      (edgeInit (Vec3.mk 0 0 0) (Vec3.mk 0 1 0))).1
      (Or.inl (by norm_num [nearTol, edgeInit]))
      (by norm_num [nearTol, edgeInit])
  · exact (faceInitFromEdges_shared_endpoint (edgeInit (Vec3.mk 0 0 0) (Vec3.mk 1 0 0))
      (edgeInit (Vec3.mk 9 9 9) (Vec3.mk 9 8 9))).2.2
      (by norm_num [nearTol, edgeInit])
      (by norm_num [nearTol, edgeInit])

/-- C9: `Edge.point(t)` raises a range-violation `ValueError` exactly
when `t` is outside `[0, 1]`, and for `t` in range returns
`vertex_a + t * (vertex_b - vertex_a)`; in particular `point(0)` is
`vertex_a`, `point(1)` is `vertex_b`, and `point(1/2)` is the midpoint
of the segment. -/
theorem edgePoint_interpolates (v0 v1 : Vec3) (t : ℚ) :
    edgePoint (edgeInit v0 v1) t =
      (if 0 ≤ t ∧ t ≤ 1 then .ok (Vec3.add v0 (Vec3.smul t (Vec3.sub v1 v0)))
        else .error .valueError) ∧
    edgePoint (edgeInit v0 v1) 0 = .ok v0 ∧
    edgePoint (edgeInit v0 v1) 1 = .ok v1 ∧
    edgePoint (edgeInit v0 v1) (1 / 2) =
      .ok (Vec3.smul (1 / 2) (Vec3.add v0 v1)) := by
  obtain ⟨ax, ay, az⟩ := v0
  obtain ⟨bx, by', bz⟩ := v1
  refine ⟨?_, ?_, ?_, ?_⟩
  · simp only [edgePoint, argcheck_minmax, edgeInit]
    split_ifs <;> rfl
  · simp only [edgePoint, argcheck_minmax, edgeInit]
    rw [if_pos (by norm_num)]
    simp only [Vec3.add, Vec3.smul, Vec3.sub, Except.ok.injEq, Vec3.mk.injEq]
    refine ⟨by ring, by ring, by ring⟩
  · simp only [edgePoint, argcheck_minmax, edgeInit]
    rw [if_pos (by norm_num)]
    simp only [Vec3.add, Vec3.smul, Vec3.sub, Except.ok.injEq, Vec3.mk.injEq]
    refine ⟨by ring, by ring, by ring⟩
  · simp only [edgePoint, argcheck_minmax, edgeInit]
    rw [if_pos (by norm_num)]
    simp only [Vec3.add, Vec3.smul, Vec3.sub, Except.ok.injEq, Vec3.mk.injEq]
    refine ⟨by ring, by ring, by ring⟩

/-- Models `Plane.point` in closed form: the typo'd formula collapses to
`point_a + (scale_a + scale_b) * vector_v`. -/
theorem planePoint_eq (pl : Plane) (sa sb : ℚ) :
    planePoint pl sa sb = Vec3.add pl.point_a (Vec3.smul (sa + sb) pl.vector_v) := by
  obtain ⟨a, b, c, u, v, n⟩ := pl
  obtain ⟨axx, ayy, azz⟩ := a
  obtain ⟨vxx, vyy, vzz⟩ := v
  simp only [planePoint, Vec3.add, Vec3.smul, Vec3.mk.injEq]
  refine ⟨by ring, by ring, by ring⟩

/-- C10: `Plane.point(scale_a, scale_b)` returns
`point_a + (scale_a + scale_b) * vector_v`; the result is independent of
`vector_u`, and any two argument pairs with the same sum produce the
same point. -/
theorem planePoint_depends_only_on_sum (pl : Plane) (sa sb sa' sb' : ℚ)
    (h : sa + sb = sa' + sb') :
    planePoint pl sa sb = Vec3.add pl.point_a (Vec3.smul (sa + sb) pl.vector_v) ∧
    (∀ u', planePoint { pl with vector_u := u' } sa sb = planePoint pl sa sb) ∧
    planePoint pl sa sb = planePoint pl sa' sb' := by
  refine ⟨planePoint_eq pl sa sb, fun u' => rfl, ?_⟩
  rw [planePoint_eq pl sa sb, planePoint_eq pl sa' sb', h]

/-- C10 witness: at a concrete plane, `point(1, 2)` and `point(0, 3)`
coincide. -/
theorem planePoint_depends_only_on_sum_witness :
    planePoint (Plane.mk (Vec3.mk 0 0 0) (Vec3.mk 1 0 0) (Vec3.mk 0 1 0)
        (Vec3.mk 1 0 0) (Vec3.mk 0 1 0) (Vec3.mk 0 0 1)) 1 2 =
      planePoint (Plane.mk (Vec3.mk 0 0 0) (Vec3.mk 1 0 0) (Vec3.mk 0 1 0)
        (Vec3.mk 1 0 0) (Vec3.mk 0 1 0) (Vec3.mk 0 0 1)) 0 3 :=
  (planePoint_depends_only_on_sum
    (Plane.mk (Vec3.mk 0 0 0) (Vec3.mk 1 0 0) (Vec3.mk 0 1 0)
      (Vec3.mk 1 0 0) (Vec3.mk 0 1 0) (Vec3.mk 0 0 1)) 1 2 0 3 (by norm_num)).2.2

end GeoUtils
